import Mathlib

/-
Verification of the `Perhaps` result container from the pyeither repository.

The repository consists of a notebook (`pyeither_demo.ipynb`) that builds, in
stages, a class `Perhaps` with fields `value` and `success`, a shared failure
sentinel `fail = Perhaps(None, False)`, a lifting constructor
`succeed(v) = Perhaps(v, True)`, and methods `inside` (map), `collapse`
(flatten), `and_then` (bind) and a `failure` property, plus a helper
`attempt`; and a README (`src/unnamed/part_000`) that shows a second, slightly
different final implementation of the same class.

The embedding below follows the notebook's final class (the cells that are
executed last shadow the earlier ones), with the README's variants in the
`Readme` namespace.  Python values are modelled by the inductive `PyVal`;
objects whose internal structure no claim inspects (modules, functions,
classes, file handles, floats) are modelled opaquely as `PyVal.obj tag`.
A Python callable is modelled as `PyVal → Except PyErr PyVal`: it either
returns a value normally or raises.  Method bodies that can raise are
likewise embedded as `Except PyErr _`-valued functions; bodies that cannot
raise are embedded as pure functions.
-/

namespace PyEither

/-- A Python runtime value, as far as the `Perhaps` code inspects it.
`perhaps v s` is an instance `Perhaps(value=v, success=s)` (the notebook's
field order is `value, success`); `obj tag` is an opaque object (module,
function, class, float, file handle) that no claim takes apart. -/
inductive PyVal where
  | none : PyVal
  | bool : Bool → PyVal
  | int : Int → PyVal
  | str : String → PyVal
  | obj : String → PyVal
  | perhaps : PyVal → Bool → PyVal
deriving DecidableEq, Repr

/-- A raised Python exception: a `NameError` for an unbound name, an
`AttributeError` for a missing attribute, or an error object raised by
user code (carried as a value). -/
inductive PyErr where
  | nameError : String → PyErr
  | attributeError : String → PyErr
  | raised : PyVal → PyErr
deriving DecidableEq, Repr

/-- Does the value have class `Perhaps`? -/
def PyVal.isPerhaps : PyVal → Bool
  | PyVal.perhaps _ _ => true
  | _ => false

/-- Notebook: `fail = Perhaps(None, False)` — the shared failure sentinel
(final binding, last class cell). -/
def fail : PyVal := PyVal.perhaps PyVal.none false

/-- Notebook: `def succeed(v): return Perhaps(v, True)` — lift a value into
`Perhaps`.  The body cannot raise, so it is embedded as a pure function. -/
def succeed (v : PyVal) : PyVal := PyVal.perhaps v true

/-- A Python function whose body always returns normally, viewed as a
callable (it never raises). -/
def pureFn (f : PyVal → PyVal) : PyVal → Except PyErr PyVal :=
  fun v => Except.ok (f v)

/-- Notebook method `Perhaps.inside` (map), final class:
`if self.success: return succeed(f(self.value)) else: return fail`.
`self` is split into its two fields; an exception raised by `f`
propagates out of the method. -/
def Perhaps.inside (value : PyVal) (success : Bool)
    (f : PyVal → Except PyErr PyVal) : Except PyErr PyVal :=
  if success then
    match f value with
    | Except.ok r => Except.ok (succeed r)
    | Except.error e => Except.error e
  else Except.ok fail

/-- Notebook method `Perhaps.collapse` (flatten), final class:
`if self.success: return self.value else: return fail`.
The body cannot raise. -/
def Perhaps.collapse (value : PyVal) (success : Bool) : PyVal :=
  if success then value else fail

/-- The method call `x.collapse()` on an arbitrary value `x`: dispatches to
`Perhaps.collapse` when `x` is a `Perhaps` instance and raises
`AttributeError` otherwise. -/
def PyVal.collapse : PyVal → Except PyErr PyVal
  | PyVal.perhaps v s => Except.ok (Perhaps.collapse v s)
  | _ => Except.error (PyErr.attributeError "collapse")

/-- Notebook method `Perhaps.and_then` (bind), final class:
`return self.inside(f).collapse()` — call `inside`, then call the
`collapse` method on its result, propagating any exception. -/
def Perhaps.and_then (value : PyVal) (success : Bool)
    (f : PyVal → Except PyErr PyVal) : Except PyErr PyVal :=
  match Perhaps.inside value success f with
  | Except.ok r => PyVal.collapse r
  | Except.error e => Except.error e

/-- The method call `x.and_then(f)` on an arbitrary value `x`: dispatches to
`Perhaps.and_then` when `x` is a `Perhaps` instance and raises
`AttributeError` otherwise. -/
def PyVal.and_then : PyVal → (PyVal → Except PyErr PyVal) → Except PyErr PyVal
  | PyVal.perhaps v s, f => Perhaps.and_then v s f
  | _, _ => Except.error (PyErr.attributeError "and_then")

/-- Notebook: `def attempt(f, *args, **kwargs)` —
`try: return succeed(f(*args, **kwargs)) except: return fail`.
Positional arguments are modelled as a list; the bare `except:` catches
every exception, so any raise becomes the sentinel `fail`. -/
def attempt (f : List PyVal → Except PyErr PyVal) (args : List PyVal) : PyVal :=
  match f args with
  | Except.ok v => succeed v
  | Except.error _ => fail

/-- Names bound at module (global) scope by the notebook's code cells, with
their values at the end of the notebook.  Functions, classes, modules, file
handles and floats are opaque `PyVal.obj` values.  No cell ever binds the
name `success` at module scope. -/
def notebookGlobals : List (String × PyVal) :=
  [("attr", PyVal.obj "module attr"),
   ("either", PyVal.obj "module either"),
   ("catch_locally", PyVal.obj "function catch_locally"),
   ("main_v1", PyVal.obj "function main_v1"),
   ("catch_nonlocally", PyVal.obj "function catch_nonlocally"),
   ("main_v2", PyVal.obj "function main_v2"),
   ("div", PyVal.obj "function div"),
   ("main_v3", PyVal.obj "function main_v3"),
   ("Perhaps", PyVal.obj "class Perhaps"),
   ("fail", fail),
   ("succeed", PyVal.obj "function succeed"),
   ("times_10", PyVal.obj "function times_10"),
   ("a", PyVal.perhaps (PyVal.obj "float 5.0") true),
   ("b", PyVal.perhaps (PyVal.obj "float 50.0") true),
   ("even", PyVal.obj "function even"),
   ("fd", PyVal.obj "file handle fd"),
   ("os", PyVal.obj "module os"),
   ("yaml", PyVal.obj "module yaml"),
   ("Person", PyVal.obj "class Person"),
   ("attempt", PyVal.obj "function attempt"),
   ("ensure_path", PyVal.obj "function ensure_path"),
   ("read_content", PyVal.obj "function read_content"),
   ("parse_yaml", PyVal.obj "function parse_yaml"),
   ("load_person", PyVal.obj "function load_person"),
   ("process", PyVal.obj "function process")]

/-- Evaluating a free name inside a method body: Python looks the name up in
the module's global scope (a method body is not a closure over the class
body, and `self`'s attributes are not in scope), raising `NameError` when
the name is unbound. -/
def lookupGlobal (n : String) : Except PyErr PyVal :=
  match notebookGlobals.find? (fun p => p.1 == n) with
  | some p => Except.ok p.2
  | Option.none => Except.error (PyErr.nameError n)

/-- Python truthiness of a value (`bool(x)`); objects without `__bool__`,
including `Perhaps` instances, are truthy. -/
def pyTruthy : PyVal → Bool
  | PyVal.none => false
  | PyVal.bool b => b
  | PyVal.int n => n != 0
  | PyVal.str s => !s.isEmpty
  | PyVal.obj _ => true
  | PyVal.perhaps _ _ => true

/-- Notebook property `Perhaps.failure`, final class: `return not success`.
The body names `success` bare (not `self.success`), so evaluating it looks
up the free name `success` in the global scope and negates its truthiness;
the instance's own fields are untouched. -/
def Perhaps.failure (value : PyVal) (success : Bool) : Except PyErr PyVal :=
  match lookupGlobal "success" with
  | Except.ok g => Except.ok (PyVal.bool (!pyTruthy g))
  | Except.error e => Except.error e

namespace Readme

/-- README (`src/unnamed/part_000`): `def identity(v): return v`. -/
def identity (v : PyVal) : PyVal := v

/-- README property `Perhaps.failure`: `return not self.success` — the
negation of the instance's own `success` field; cannot raise. -/
def Perhaps.failure (value : PyVal) (success : Bool) : Bool := !success

/-- README method `Perhaps.and_then`, final class:
`if self.success: return f(self.value) else: return fail`. -/
def Perhaps.and_then (value : PyVal) (success : Bool)
    (f : PyVal → Except PyErr PyVal) : Except PyErr PyVal :=
  if success then f value else Except.ok fail

/-- README method `Perhaps.collapse`, final class:
`return self.and_then(identity)` (with the README's `and_then` and
`identity`). -/
def Perhaps.collapse (value : PyVal) (success : Bool) : Except PyErr PyVal :=
  Readme.Perhaps.and_then value success (pureFn Readme.identity)

end Readme

/-- A `Perhaps`-returning Python function (one that always returns normally
with a `Perhaps` instance), given by its result's two fields. -/
def toPerhapsFn (f : PyVal → PyVal × Bool) : PyVal → Except PyErr PyVal :=
  fun x => Except.ok (PyVal.perhaps (f x).1 (f x).2)


/-- C1 counterexample: the failure value `Perhaps(7, False)` is mapped by
both `inside` and `and_then` to the sentinel `fail = Perhaps(None, False)`,
which is not equal to that failure — so "applied to the failure equals that
failure" fails for a failure whose `value` field is not `None`. -/
theorem c1_counterexample :
    Perhaps.inside (PyVal.int 7) false (pureFn (fun _ => PyVal.str "unused"))
      = Except.ok fail ∧
    Perhaps.and_then (PyVal.int 7) false (pureFn (fun _ => PyVal.str "unused"))
      = Except.ok fail ∧
    fail ≠ PyVal.perhaps (PyVal.int 7) false := by
  refine ⟨rfl, rfl, ?_⟩
  decide

/-- C1 amended: for every failure value and every function `f` (including
raising ones), `inside` and `and_then` return the shared sentinel `fail`,
without invoking `f` (the result does not mention `f`); when the failure is
the sentinel itself — the only failure the library's constructors produce —
the result therefore equals that failure. -/
theorem c1_amended : ∀ (v : PyVal) (f : PyVal → Except PyErr PyVal),
    Perhaps.inside v false f = Except.ok fail ∧
    Perhaps.and_then v false f = Except.ok fail ∧
    Perhaps.inside PyVal.none false f
      = Except.ok (PyVal.perhaps PyVal.none false) ∧
    Perhaps.and_then PyVal.none false f
      = Except.ok (PyVal.perhaps PyVal.none false) := by
  intro v f
  exact ⟨rfl, rfl, rfl, rfl⟩

/-- C2 counterexample: binding the failure `Perhaps(42, False)` with
`succeed` yields the sentinel `fail`, not the original value — right
identity fails for a failure whose `value` field is not `None`. -/
theorem c2_counterexample :
    Perhaps.and_then (PyVal.int 42) false (pureFn succeed) = Except.ok fail ∧
    ¬ (Perhaps.and_then (PyVal.int 42) false (pureFn succeed)
        = Except.ok (PyVal.perhaps (PyVal.int 42) false)) := by
  refine ⟨rfl, ?_⟩
  intro h
  simp [Perhaps.and_then, Perhaps.inside, PyVal.collapse, Perhaps.collapse,
        pureFn, succeed, fail] at h

/-- C2 amended: `bind(r, succeed) == r` holds for every success and for the
sentinel `fail`; a failure whose `value` field is not `None` is instead
normalized to the sentinel. -/
theorem c2_amended : ∀ v : PyVal,
    Perhaps.and_then v true (pureFn succeed)
      = Except.ok (PyVal.perhaps v true) ∧
    Perhaps.and_then v false (pureFn succeed) = Except.ok fail ∧
    Perhaps.and_then PyVal.none false (pureFn succeed)
      = Except.ok (PyVal.perhaps PyVal.none false) := by
  intro v
  exact ⟨rfl, rfl, rfl⟩

/-- C3: monad associativity of `and_then` — for every `Perhaps` value
(given by its two fields) and all `Perhaps`-returning functions `f`, `g`,
binding with `f` and then binding the result with `g` (exceptions
propagating) equals binding once with `fun v => bind (f v) g`. -/
theorem c3_assoc : ∀ (v : PyVal) (s : Bool) (f g : PyVal → PyVal × Bool),
    (match Perhaps.and_then v s (toPerhapsFn f) with
      | Except.ok r => PyVal.and_then r (toPerhapsFn g)
      | Except.error e => Except.error e)
    = Perhaps.and_then v s
        (fun x => Perhaps.and_then (f x).1 (f x).2 (toPerhapsFn g)) := by
  intro v s f g
  cases s with
  | false => rfl
  | true =>
    cases hfv : (f v).2 <;>
      simp [Perhaps.and_then, Perhaps.inside, PyVal.and_then, PyVal.collapse,
            Perhaps.collapse, toPerhapsFn, succeed, fail, hfv]

/-- C4 counterexample: collapsing the failure `Perhaps(99, False)` yields
the sentinel `fail`, not that failure — "collapse of a failure equals that
failure" fails for a failure whose `value` field is not `None`. -/
theorem c4_counterexample :
    Perhaps.collapse (PyVal.int 99) false = fail ∧
    Perhaps.collapse (PyVal.int 99) false ≠ PyVal.perhaps (PyVal.int 99) false := by
  refine ⟨rfl, ?_⟩
  decide

/-- C4 amended: `collapse` removes exactly one level of nesting —
`collapse (succeed (succeed x)) = succeed x` and
`collapse (succeed fail) = fail`; collapsing any failure yields the
sentinel `fail` (hence equals that failure exactly when the failure is the
sentinel, as it is for every failure the library constructs). -/
theorem c4_amended : ∀ (x v : PyVal),
    Perhaps.collapse (succeed x) true = succeed x ∧
    Perhaps.collapse fail true = fail ∧
    Perhaps.collapse v false = fail ∧
    Perhaps.collapse PyVal.none false = PyVal.perhaps PyVal.none false := by
  intro x v
  exact ⟨rfl, rfl, rfl, rfl⟩

/-- C5 counterexample: when the invoked function raises the error object
`"boom"`, `attempt` returns the bare sentinel `Perhaps(None, False)` — a
failure whose payload is `None`, not the raised error or its string form. -/
theorem c5_counterexample :
    attempt (fun _ => Except.error (PyErr.raised (PyVal.str "boom")))
        [PyVal.none]
      = PyVal.perhaps PyVal.none false ∧
    PyVal.perhaps PyVal.none false ≠ PyVal.perhaps (PyVal.str "boom") false := by
  refine ⟨rfl, ?_⟩
  decide

/-- C5 amended: `attempt f args` returns `Success v` whenever the
invocation completes normally with `v`, and whenever it raises (any
exception) it returns the shared failure sentinel `fail = Perhaps(None,
False)`, which carries no error payload. -/
theorem c5_amended : ∀ (f : List PyVal → Except PyErr PyVal)
    (args : List PyVal) (v : PyVal) (e : PyErr),
    (f args = Except.ok v → attempt f args = succeed v) ∧
    (f args = Except.error e → attempt f args = fail) := by
  intro f args v e
  constructor <;> intro h <;> simp [attempt, h]

/-- C5 witness: the amended theorem applied to a concrete normally-returning
function and a concrete raising function. -/
theorem c5_witness :
    attempt (fun _ => Except.ok (PyVal.int 7)) [] = succeed (PyVal.int 7) ∧
    attempt (fun _ => Except.error (PyErr.raised (PyVal.str "x"))) [] = fail :=
  ⟨(c5_amended (fun _ => Except.ok (PyVal.int 7)) [] (PyVal.int 7)
      (PyErr.raised (PyVal.str "x"))).1 rfl,
   (c5_amended (fun _ => Except.error (PyErr.raised (PyVal.str "x"))) []
      (PyVal.int 7) (PyErr.raised (PyVal.str "x"))).2 rfl⟩

/-- C6: the notebook's direct-branch `collapse` and the README's
`collapse = and_then(identity)` agree on every `Perhaps` input (the README
version never raises, and returns exactly the notebook version's result). -/
theorem c6_collapse_equiv : ∀ (v : PyVal) (s : Bool),
    Readme.Perhaps.collapse v s = Except.ok (Perhaps.collapse v s) := by
  intro v s
  cases s <;> rfl

/-- C7 counterexample: mapping the identity function over the failure
`Perhaps(5, False)` yields the sentinel `fail`, not that failure — functor
identity fails for a failure whose `value` field is not `None`. -/
theorem c7_counterexample :
    Perhaps.inside (PyVal.int 5) false (pureFn Readme.identity)
      = Except.ok fail ∧
    fail ≠ PyVal.perhaps (PyVal.int 5) false := by
  refine ⟨rfl, ?_⟩
  decide

/-- C7 amended: `map(r, identity) == r` holds for every success and for the
sentinel `fail`; a failure whose `value` field is not `None` is instead
normalized to the sentinel. -/
theorem c7_amended : ∀ v : PyVal,
    Perhaps.inside v true (pureFn Readme.identity)
      = Except.ok (PyVal.perhaps v true) ∧
    Perhaps.inside v false (pureFn Readme.identity) = Except.ok fail ∧
    Perhaps.inside PyVal.none false (pureFn Readme.identity)
      = Except.ok (PyVal.perhaps PyVal.none false) := by
  intro v
  exact ⟨rfl, rfl, rfl⟩

/-- C8: every operation normalizes the failure branch to the shared
sentinel — for every `Perhaps` whose `success` field is `False`, whatever
its `value` field holds and whatever `f` is, `inside`, `and_then` and
`collapse` all return `fail = Perhaps(None, False)`, discarding any stored
payload. -/
theorem c8_failure_normalized : ∀ (v : PyVal) (f : PyVal → Except PyErr PyVal),
    Perhaps.inside v false f = Except.ok fail ∧
    Perhaps.and_then v false f = Except.ok fail ∧
    Perhaps.collapse v false = fail ∧
    fail = PyVal.perhaps PyVal.none false := by
  intro v f
  exact ⟨rfl, rfl, rfl, rfl⟩

/-- C9: `collapse` on a success returns the stored payload itself, whatever
it is — in particular collapsing `Success(3)` yields the bare value `3`,
which is not a `Perhaps` instance, so `collapse` can escape the result
type. -/
theorem c9_collapse_escapes :
    (∀ v : PyVal, Perhaps.collapse v true = v) ∧
    Perhaps.collapse (PyVal.int 3) true = PyVal.int 3 ∧
    (Perhaps.collapse (PyVal.int 3) true).isPerhaps = false := by
  exact ⟨fun v => rfl, rfl, rfl⟩

/-- C10: the notebook's `failure` property evaluates `not success` with a
bare name, so on every instance — in particular on the sentinel
`fail = Perhaps(None, False)` — it raises `NameError: success` instead of
returning the negation of the instance's `success` field; the README's
`not self.success` version returns the negation as the claim states. -/
theorem c10_failure_raises :
    Perhaps.failure PyVal.none false
      = Except.error (PyErr.nameError "success") ∧
    (∀ (v : PyVal) (s : Bool),
      Perhaps.failure v s = Except.error (PyErr.nameError "success")) ∧
    (∀ (v : PyVal) (s : Bool), Readme.Perhaps.failure v s = !s) := by
  exact ⟨rfl, fun v s => rfl, fun v s => rfl⟩

end PyEither
